import Mathlib

/-!
Shallow embedding of `vendor/sigs.k8s.io/controller-runtime/pkg/builder/build.go`
(package `builder`): the fluent `Builder` that assembles a controller, and its
finalize pipeline `Build` (`Complete`) with the five sub-steps `doConfig`,
`doManager`, `doController`, `doWebhook`, `doWatch`.

The external framework services the builder calls (config discovery
`getConfig`, `manager.New`, `controller.New`, `apiutil.GVKForObject`,
`Controller.Watch`, `WebhookServer.Register`, the `admission.Defaulter` /
`admission.Validator` capability checks and `admission.DefaultingWebhookFor` /
`admission.ValidatingWebhookFor`) are not part of the given source; they are
modelled by an environment `Env` of uninterpreted functions following Go's
`(value, error)` return convention, with `Option` standing for nilable
pointers/interfaces.  Every external call the builder makes is recorded in a
trace of `Event`s so that claims about which calls happen, in which order and
with which arguments, are statements about the trace.
-/

namespace ControllerBuilder

/-- Go `error`: `none` is Go's `nil` error; `some e` carries the message. -/
abbrev Err := String

/-- Opaque handle for `*rest.Config` values (the builder never inspects one). -/
abbrev Config := Nat

/-- Opaque handle for `manager.Manager` values. -/
abbrev Manager := Nat

/-- Opaque handle for `controller.Controller` values. -/
abbrev Controller := Nat

/-- Opaque handle for `*runtime.Scheme` values. -/
abbrev Scheme := Nat

/-- Opaque handle for `runtime.Object` interface values (0 may model Go's nil
interface; the builder never nil-checks `apiType`, it only passes it on). -/
abbrev Object := Nat

/-- Opaque handle for `predicate.Predicate` values. -/
abbrev Predicate := Nat

/-- Opaque handle for `reconcile.Reconciler` values (a `Build` argument is
`Option Reconciler` because Go checks it against nil). -/
abbrev Reconciler := Nat

/-- Opaque handle for `admission.Webhook` handlers returned by the webhook
constructors (`Option` because the code nil-checks them). -/
abbrev WebhookHandler := Nat

/-- Opaque handle for the manager's `webhook.Server`. -/
abbrev WebhookServer := Nat

/-- `schema.GroupVersionKind` as far as the builder uses it. -/
structure GVK where
  group : String
  version : String
  kind : String
deriving DecidableEq, Repr

/-- `source.Source`: the builder itself only constructs `&source.Kind{Type: t}`;
free-form `Watches` calls may pass any source, modelled by `custom`. -/
inductive Source where
  | kind (type : Object)
  | custom (id : Nat)
deriving DecidableEq, Repr

/-- `handler.EventHandler`: the two handlers the builder constructs, plus
arbitrary caller-supplied handlers for free-form watches. -/
inductive EventHandler where
  | enqueueRequestForObject
  | enqueueRequestForOwner (ownerType : Object) (isController : Bool)
  | custom (id : Nat)
deriving DecidableEq, Repr

/-- The `watchRequest` struct of build.go. -/
structure WatchRequest where
  src : Source
  eventhandler : EventHandler
deriving DecidableEq, Repr

/-- One recorded external call made by the builder. -/
inductive Event where
  | getConfigCall
  | newManagerCall (cfg : Option Config)
  | newControllerCall (name : String) (mgr : Option Manager) (r : Reconciler)
  | registerWebhook (server : WebhookServer) (path : String) (hdl : WebhookHandler)
  | watchCall (ctrl : Option Controller) (src : Source) (hdler : EventHandler)
      (preds : List Predicate)
deriving DecidableEq, Repr

/-- The ambient framework: uninterpreted behaviour of every external call the
builder makes.  Go multi-returns `(T, error)` become `Option T × Option Err`
(a nil result with a nil error is expressible, as in Go).  Methods invoked on
a possibly-nil interface receive the `Option`; Go would panic on nil there,
which no claim exercises. -/
structure Env where
  getConfig : Option Config × Option Err
  newManager : Option Config → Option Manager × Option Err
  mgrGetConfig : Option Manager → Config
  mgrGetScheme : Option Manager → Scheme
  mgrGetWebhookServer : Option Manager → WebhookServer
  getGvk : Object → Scheme → GVK × Option Err
  newController : String → Option Manager → Reconciler → Option Controller × Option Err
  ctrlWatch : Option Controller → Source → EventHandler → List Predicate → Option Err
  isDefaulter : Object → Bool
  defaultingWebhookFor : Object → Option WebhookHandler
  isValidator : Object → Bool
  validatingWebhookFor : Object → Option WebhookHandler

/-- The `Builder` struct.  Nilable pointer/interface fields the code compares
against nil (`mgr`, `config`) are `Option`; `ctrl` is `Option` because it is
assigned from a fallible constructor; `apiType` is never nil-checked by the
code so it stays a bare handle (its Go zero value modelled as 0). -/
structure Builder where
  apiType : Object := 0
  mgr : Option Manager := none
  predicates : List Predicate := []
  managedObjects : List Object := []
  watchRequest : List WatchRequest := []
  config : Option Config := none
  ctrl : Option Controller := none
deriving DecidableEq, Repr

/-- `SimpleController()`: a zero-valued Builder. -/
def SimpleController : Builder := {}

/-- `For`: stores the reconciled type. -/
def Builder.For (blder : Builder) (apiType : Object) : Builder :=
  { blder with apiType := apiType }

/-- `ForType` (deprecated alias of `For`). -/
def Builder.ForType (blder : Builder) (apiType : Object) : Builder :=
  blder.For apiType

/-- `Owns`: appends to `managedObjects`. -/
def Builder.Owns (blder : Builder) (apiType : Object) : Builder :=
  { blder with managedObjects := blder.managedObjects ++ [apiType] }

/-- `Watches`: appends a free-form watch request. -/
def Builder.Watches (blder : Builder) (src : Source) (eventhandler : EventHandler) :
    Builder :=
  { blder with watchRequest := blder.watchRequest ++ [⟨src, eventhandler⟩] }

/-- `WithConfig`: overwrites `config`. -/
def Builder.WithConfig (blder : Builder) (config : Option Config) : Builder :=
  { blder with config := config }

/-- `WithManager`: overwrites `mgr`. -/
def Builder.WithManager (blder : Builder) (m : Option Manager) : Builder :=
  { blder with mgr := m }

/-- `WithEventFilter`: appends a predicate. -/
def Builder.WithEventFilter (blder : Builder) (p : Predicate) : Builder :=
  { blder with predicates := blder.predicates ++ [p] }

/-- `ControllerManagedBy(m)` = `SimpleController().WithManager(m)`. -/
def ControllerManagedBy (m : Manager) : Builder :=
  SimpleController.WithManager (some m)

/-- `doConfig`: explicit config wins; else a set manager's `GetConfig()`; else
the ambient discovery service `getConfig` (`blder.config, err = getConfig()`
assigns the returned value even on error, as the Go does). -/
def Builder.doConfig (blder : Builder) (env : Env) :
    Builder × List Event × Option Err :=
  match blder.config with
  | some _ => (blder, [], none)
  | none =>
    match blder.mgr with
    | some _ =>
      ({ blder with config := some (env.mgrGetConfig blder.mgr) }, [], none)
    | none =>
      let res := env.getConfig
      ({ blder with config := res.1 }, [Event.getConfigCall], res.2)

/-- `doManager`: reuse a set manager, else `newManager(blder.config, Options{})`
(`blder.mgr, err = newManager(...)` assigns the returned value even on error). -/
def Builder.doManager (blder : Builder) (env : Env) :
    Builder × List Event × Option Err :=
  match blder.mgr with
  | some _ => (blder, [], none)
  | none =>
    let res := env.newManager blder.config
    ({ blder with mgr := res.1 }, [Event.newManagerCall blder.config], res.2)

/-- Character-level model of Go `strings.ToLower` as applied to Kubernetes kind
and group/version names (ASCII). -/
def goToLower (s : String) : String := ⟨s.data.map Char.toLower⟩

/-- Character-level model of Go `strings.Replace(s, ".", "-", -1)`: the pattern
is the single character `.`, so replacing every occurrence is a character map. -/
def goDotsToHyphens (s : String) : String :=
  ⟨s.data.map fun c => if c = '.' then '-' else c⟩

/-- `getControllerName`: `fmt.Sprintf("%s-application", strings.ToLower(gvk.Kind))`
after `getGvk(blder.apiType, blder.mgr.GetScheme())`; `("", err)` on error. -/
def Builder.getControllerName (blder : Builder) (env : Env) : String × Option Err :=
  let res := env.getGvk blder.apiType (env.mgrGetScheme blder.mgr)
  match res.2 with
  | some e => ("", some e)
  | none => (goToLower res.1.kind ++ "-application", none)

/-- `doController`: resolve the name, then
`blder.ctrl, err = newController(name, blder.mgr, Options{Reconciler: r})`. -/
def Builder.doController (blder : Builder) (env : Env) (r : Reconciler) :
    Builder × List Event × Option Err :=
  let nres := blder.getControllerName env
  match nres.2 with
  | some e => (blder, [], some e)
  | none =>
    let cres := env.newController nres.1 blder.mgr r
    ({ blder with ctrl := cres.1 },
      [Event.newControllerCall nres.1 blder.mgr r], cres.2)

/-- `doWebhook`: resolve the GVK (returning the error if it fails), derive
`partialPath`, then register a mutating webhook when the type is an
`admission.Defaulter` whose `DefaultingWebhookFor` handler is non-nil, and a
validating webhook likewise; the final statement is `return err`, the
outer-scope variable last assigned by the GVK call (necessarily nil on this
path).  The `log.Info` calls are pure logging and are not modelled. -/
def Builder.doWebhook (blder : Builder) (env : Env) : List Event × Option Err :=
  let gres := env.getGvk blder.apiType (env.mgrGetScheme blder.mgr)
  let gvk := gres.1
  let err := gres.2
  match err with
  | some e => ([], some e)
  | none =>
    let partialPath :=
      goDotsToHyphens gvk.group ++ "-" ++ gvk.version ++ "-" ++ goToLower gvk.kind
    let mutateEvents :=
      if env.isDefaulter blder.apiType then
        match env.defaultingWebhookFor blder.apiType with
        | some mwh =>
          [Event.registerWebhook (env.mgrGetWebhookServer blder.mgr)
            ("/mutate-" ++ partialPath) mwh]
        | none => []
      else []
    let validateEvents :=
      if env.isValidator blder.apiType then
        match env.validatingWebhookFor blder.apiType with
        | some vwh =>
          [Event.registerWebhook (env.mgrGetWebhookServer blder.mgr)
            ("/validate-" ++ partialPath) vwh]
        | none => []
      else []
    (mutateEvents ++ validateEvents, err)

/-- The `for _, obj := range blder.managedObjects` loop of `doWatch`: one
owner-indexed watch per owned type, stopping at the first error. -/
def watchOwnedLoop (env : Env) (ctrl : Option Controller) (ownerType : Object)
    (preds : List Predicate) : List Object → List Event × Option Err
  | [] => ([], none)
  | obj :: rest =>
    let src := Source.kind obj
    let hdler := EventHandler.enqueueRequestForOwner ownerType true
    let ev := Event.watchCall ctrl src hdler preds
    match env.ctrlWatch ctrl src hdler preds with
    | some e => ([ev], some e)
    | none =>
      let tail := watchOwnedLoop env ctrl ownerType preds rest
      (ev :: tail.1, tail.2)

/-- The `for _, w := range blder.watchRequest` loop of `doWatch`: each free-form
watch request, stopping at the first error. -/
def watchRequestLoop (env : Env) (ctrl : Option Controller)
    (preds : List Predicate) : List WatchRequest → List Event × Option Err
  | [] => ([], none)
  | w :: rest =>
    let ev := Event.watchCall ctrl w.src w.eventhandler preds
    match env.ctrlWatch ctrl w.src w.eventhandler preds with
    | some e => ([ev], some e)
    | none =>
      let tail := watchRequestLoop env ctrl preds rest
      (ev :: tail.1, tail.2)

/-- `doWatch`: the reconciled-type watch with `EnqueueRequestForObject`, then
the owned-type loop, then the free-form loop; every call passes
`blder.predicates...`; first error aborts. -/
def Builder.doWatch (blder : Builder) (env : Env) : List Event × Option Err :=
  let src := Source.kind blder.apiType
  let hdler := EventHandler.enqueueRequestForObject
  let ev := Event.watchCall blder.ctrl src hdler blder.predicates
  match env.ctrlWatch blder.ctrl src hdler blder.predicates with
  | some e => ([ev], some e)
  | none =>
    let owned := watchOwnedLoop env blder.ctrl blder.apiType blder.predicates
      blder.managedObjects
    match owned.2 with
    | some e => (ev :: owned.1, some e)
    | none =>
      let reqs := watchRequestLoop env blder.ctrl blder.predicates
        blder.watchRequest
      (ev :: owned.1 ++ reqs.1, reqs.2)

/-- The Go error text of `fmt.Errorf("must provide a non-nil Reconciler")`. -/
def missingReconcilerErr : Err := "must provide a non-nil Reconciler"

/-- Result of `Build`: the final builder state, the trace of external calls,
and the Go return pair `(manager.Manager, error)`. -/
structure BuildResult where
  blder : Builder
  trace : List Event
  mgr : Option Manager
  err : Option Err
deriving DecidableEq, Repr

/-- `Build`: nil-reconciler check, then `doConfig`, `doManager`, `doController`,
`doWebhook`, `doWatch` in order, each early-returning its error; on success
returns `blder.mgr`. -/
def Builder.Build (blder : Builder) (env : Env) (r : Option Reconciler) :
    BuildResult :=
  match r with
  | none => ⟨blder, [], none, some missingReconcilerErr⟩
  | some rr =>
    let s1 := blder.doConfig env
    match s1.2.2 with
    | some e => ⟨s1.1, s1.2.1, none, some e⟩
    | none =>
      let s2 := s1.1.doManager env
      match s2.2.2 with
      | some e => ⟨s2.1, s1.2.1 ++ s2.2.1, none, some e⟩
      | none =>
        let s3 := s2.1.doController env rr
        match s3.2.2 with
        | some e => ⟨s3.1, s1.2.1 ++ s2.2.1 ++ s3.2.1, none, some e⟩
        | none =>
          let s4 := s3.1.doWebhook env
          match s4.2 with
          | some e => ⟨s3.1, s1.2.1 ++ s2.2.1 ++ s3.2.1 ++ s4.1, none, some e⟩
          | none =>
            let s5 := s3.1.doWatch env
            match s5.2 with
            | some e =>
              ⟨s3.1, s1.2.1 ++ s2.2.1 ++ s3.2.1 ++ s4.1 ++ s5.1, none, some e⟩
            | none =>
              ⟨s3.1, s1.2.1 ++ s2.2.1 ++ s3.2.1 ++ s4.1 ++ s5.1, s3.1.mgr, none⟩

/-- `Complete(r)` = `Build(r)` discarding the manager. -/
def Builder.Complete (blder : Builder) (env : Env) (r : Option Reconciler) :
    Option Err :=
  (blder.Build env r).err

/-- Recognises the watch-registration events in a trace. -/
def Event.isWatch : Event → Bool
  | watchCall _ _ _ _ => true
  | _ => false

/-- Modelled from the spec: the expected sequence of watch registrations — the
reconciled-type watch with the enqueue-for-this-object handler first, then one
owner-indexed watch per owned type in insertion order, then each free-form
watch request in insertion order, all carrying the accumulated filters. -/
def specWatchEvents (ctrl : Option Controller) (apiType : Object)
    (managedObjects : List Object) (watchRequest : List WatchRequest)
    (preds : List Predicate) : List Event :=
  Event.watchCall ctrl (Source.kind apiType) EventHandler.enqueueRequestForObject
      preds ::
    ((managedObjects.map fun obj =>
      Event.watchCall ctrl (Source.kind obj)
        (EventHandler.enqueueRequestForOwner apiType true) preds) ++
     watchRequest.map fun w => Event.watchCall ctrl w.src w.eventhandler preds)

/-! ### Sample environments and builders used to witness the theorems -/

/-- A GVK matching the worked example of the spec. -/
def sampleGvk : GVK := ⟨"apps.example.com", "v1", "Foo"⟩

/-- An environment where every external call succeeds. -/
def sampleEnv : Env :=
  { getConfig := (some 7, none)
    newManager := fun _ => (some 3, none)
    mgrGetConfig := fun _ => 5
    mgrGetScheme := fun _ => 2
    mgrGetWebhookServer := fun _ => 9
    getGvk := fun _ _ => (sampleGvk, none)
    newController := fun _ _ _ => (some 4, none)
    ctrlWatch := fun _ _ _ _ => none
    isDefaulter := fun _ => true
    defaultingWebhookFor := fun _ => some 11
    isValidator := fun _ => true
    validatingWebhookFor := fun _ => some 12 }

/-- A populated builder exercising every accumulated list. -/
def builderFull : Builder :=
  { apiType := 1
    mgr := some 3
    predicates := [21, 22]
    managedObjects := [31, 32]
    watchRequest := [⟨Source.custom 41, EventHandler.custom 42⟩] }

/-! ### Helper lemmas on the individual steps -/

theorem doConfig_frame (b : Builder) (env : Env) :
    (b.doConfig env).1.apiType = b.apiType ∧
    (b.doConfig env).1.mgr = b.mgr ∧
    (b.doConfig env).1.predicates = b.predicates ∧
    (b.doConfig env).1.managedObjects = b.managedObjects ∧
    (b.doConfig env).1.watchRequest = b.watchRequest ∧
    (b.doConfig env).1.ctrl = b.ctrl := by
  cases hc : b.config <;> cases hm : b.mgr <;>
    simp [Builder.doConfig, hc, hm]

theorem doManager_frame (b : Builder) (env : Env) :
    (b.doManager env).1.apiType = b.apiType ∧
    (b.doManager env).1.predicates = b.predicates ∧
    (b.doManager env).1.managedObjects = b.managedObjects ∧
    (b.doManager env).1.watchRequest = b.watchRequest ∧
    (b.doManager env).1.config = b.config ∧
    (b.doManager env).1.ctrl = b.ctrl := by
  cases hm : b.mgr <;> simp [Builder.doManager, hm]

theorem doController_frame (b : Builder) (env : Env) (r : Reconciler) :
    (b.doController env r).1.apiType = b.apiType ∧
    (b.doController env r).1.mgr = b.mgr ∧
    (b.doController env r).1.predicates = b.predicates ∧
    (b.doController env r).1.managedObjects = b.managedObjects ∧
    (b.doController env r).1.watchRequest = b.watchRequest ∧
    (b.doController env r).1.config = b.config := by
  cases hn : (b.getControllerName env).2 <;>
    simp [Builder.doController, hn]

theorem doConfig_trace_no_watch (b : Builder) (env : Env) :
    (b.doConfig env).2.1.filter Event.isWatch = [] := by
  cases hc : b.config <;> cases hm : b.mgr <;>
    simp [Builder.doConfig, hc, hm, Event.isWatch]

theorem doManager_trace_no_watch (b : Builder) (env : Env) :
    (b.doManager env).2.1.filter Event.isWatch = [] := by
  cases hm : b.mgr <;> simp [Builder.doManager, hm, Event.isWatch]

theorem doController_trace_no_watch (b : Builder) (env : Env) (r : Reconciler) :
    (b.doController env r).2.1.filter Event.isWatch = [] := by
  cases hn : (b.getControllerName env).2 <;>
    simp [Builder.doController, hn, Event.isWatch]

theorem doWebhook_trace_no_watch (b : Builder) (env : Env) :
    (b.doWebhook env).1.filter Event.isWatch = [] := by
  cases hg : (env.getGvk b.apiType (env.mgrGetScheme b.mgr)).2 <;>
    cases hd : env.isDefaulter b.apiType <;>
      cases hv : env.isValidator b.apiType <;>
        cases hdw : env.defaultingWebhookFor b.apiType <;>
          cases hvw : env.validatingWebhookFor b.apiType <;>
            simp [Builder.doWebhook, hg, hd, hv, hdw, hvw, Event.isWatch]

theorem watchOwnedLoop_success (env : Env) (ctrl : Option Controller)
    (ownerType : Object) (preds : List Predicate) (l : List Object)
    (h : (watchOwnedLoop env ctrl ownerType preds l).2 = none) :
    (watchOwnedLoop env ctrl ownerType preds l).1 =
      l.map fun obj => Event.watchCall ctrl (Source.kind obj)
        (EventHandler.enqueueRequestForOwner ownerType true) preds := by
  induction l with
  | nil => simp [watchOwnedLoop]
  | cons obj rest ih =>
    cases hw : env.ctrlWatch ctrl (Source.kind obj)
        (EventHandler.enqueueRequestForOwner ownerType true) preds with
    | some e => simp [watchOwnedLoop, hw] at h
    | none =>
      simp only [watchOwnedLoop, hw] at h ⊢
      simp [ih h]

theorem watchRequestLoop_success (env : Env) (ctrl : Option Controller)
    (preds : List Predicate) (l : List WatchRequest)
    (h : (watchRequestLoop env ctrl preds l).2 = none) :
    (watchRequestLoop env ctrl preds l).1 =
      l.map fun w => Event.watchCall ctrl w.src w.eventhandler preds := by
  induction l with
  | nil => simp [watchRequestLoop]
  | cons w rest ih =>
    cases hw : env.ctrlWatch ctrl w.src w.eventhandler preds with
    | some e => simp [watchRequestLoop, hw] at h
    | none =>
      simp only [watchRequestLoop, hw] at h ⊢
      simp [ih h]

theorem doWatch_success_trace (b : Builder) (env : Env)
    (h : (b.doWatch env).2 = none) :
    (b.doWatch env).1 =
      specWatchEvents b.ctrl b.apiType b.managedObjects b.watchRequest
        b.predicates := by
  cases hw : env.ctrlWatch b.ctrl (Source.kind b.apiType)
      EventHandler.enqueueRequestForObject b.predicates with
  | some e => simp [Builder.doWatch, hw] at h
  | none =>
    cases ho : (watchOwnedLoop env b.ctrl b.apiType b.predicates
        b.managedObjects).2 with
    | some e => simp [Builder.doWatch, hw, ho] at h
    | none =>
      cases hr : (watchRequestLoop env b.ctrl b.predicates b.watchRequest).2 with
      | some e => simp [Builder.doWatch, hw, ho, hr] at h
      | none =>
        simp only [Builder.doWatch, hw, ho, specWatchEvents]
        simp [watchOwnedLoop_success env b.ctrl b.apiType b.predicates
            b.managedObjects ho,
          watchRequestLoop_success env b.ctrl b.predicates b.watchRequest hr]

theorem doConfig_err (b : Builder) (env : Env) (e : Err)
    (h : (b.doConfig env).2.2 = some e) : env.getConfig.2 = some e := by
  cases hc : b.config <;> cases hm : b.mgr <;>
    simp [Builder.doConfig, hc, hm] at h <;> exact h

theorem doManager_err (b : Builder) (env : Env) (e : Err)
    (h : (b.doManager env).2.2 = some e) :
    ∃ c, (env.newManager c).2 = some e := by
  cases hm : b.mgr <;> simp [Builder.doManager, hm] at h
  exact ⟨b.config, h⟩

theorem getControllerName_err (b : Builder) (env : Env) (e : Err)
    (h : (b.getControllerName env).2 = some e) :
    (env.getGvk b.apiType (env.mgrGetScheme b.mgr)).2 = some e := by
  cases hg : (env.getGvk b.apiType (env.mgrGetScheme b.mgr)).2 <;>
    simp [Builder.getControllerName, hg] at h <;> simp [h]

theorem doController_err (b : Builder) (env : Env) (r : Reconciler) (e : Err)
    (h : (b.doController env r).2.2 = some e) :
    (∃ o s, (env.getGvk o s).2 = some e) ∨
      ∃ n m, (env.newController n m r).2 = some e := by
  cases hn : (b.getControllerName env).2 with
  | some e' =>
    simp [Builder.doController, hn] at h
    exact Or.inl ⟨b.apiType, env.mgrGetScheme b.mgr,
      h ▸ getControllerName_err b env e' hn⟩
  | none =>
    simp [Builder.doController, hn] at h
    exact Or.inr ⟨(b.getControllerName env).1, b.mgr, h⟩

theorem doWebhook_err (b : Builder) (env : Env) (e : Err)
    (h : (b.doWebhook env).2 = some e) :
    (env.getGvk b.apiType (env.mgrGetScheme b.mgr)).2 = some e := by
  cases hg : (env.getGvk b.apiType (env.mgrGetScheme b.mgr)).2 <;>
    simp [Builder.doWebhook, hg] at h <;> simp [h]

theorem watchOwnedLoop_err (env : Env) (ctrl : Option Controller)
    (ownerType : Object) (preds : List Predicate) (l : List Object) (e : Err)
    (h : (watchOwnedLoop env ctrl ownerType preds l).2 = some e) :
    ∃ c s hd p, env.ctrlWatch c s hd p = some e := by
  induction l with
  | nil => simp [watchOwnedLoop] at h
  | cons obj rest ih =>
    cases hw : env.ctrlWatch ctrl (Source.kind obj)
        (EventHandler.enqueueRequestForOwner ownerType true) preds with
    | some e' =>
      simp [watchOwnedLoop, hw] at h
      exact ⟨ctrl, Source.kind obj,
        EventHandler.enqueueRequestForOwner ownerType true, preds, h ▸ hw⟩
    | none =>
      simp only [watchOwnedLoop, hw] at h
      exact ih h

theorem watchRequestLoop_err (env : Env) (ctrl : Option Controller)
    (preds : List Predicate) (l : List WatchRequest) (e : Err)
    (h : (watchRequestLoop env ctrl preds l).2 = some e) :
    ∃ c s hd p, env.ctrlWatch c s hd p = some e := by
  induction l with
  | nil => simp [watchRequestLoop] at h
  | cons w rest ih =>
    cases hw : env.ctrlWatch ctrl w.src w.eventhandler preds with
    | some e' =>
      simp [watchRequestLoop, hw] at h
      exact ⟨ctrl, w.src, w.eventhandler, preds, h ▸ hw⟩
    | none =>
      simp only [watchRequestLoop, hw] at h
      exact ih h

theorem doWatch_err (b : Builder) (env : Env) (e : Err)
    (h : (b.doWatch env).2 = some e) :
    ∃ c s hd p, env.ctrlWatch c s hd p = some e := by
  cases hw : env.ctrlWatch b.ctrl (Source.kind b.apiType)
      EventHandler.enqueueRequestForObject b.predicates with
  | some e' =>
    simp [Builder.doWatch, hw] at h
    exact ⟨b.ctrl, Source.kind b.apiType,
      EventHandler.enqueueRequestForObject, b.predicates, h ▸ hw⟩
  | none =>
    cases ho : (watchOwnedLoop env b.ctrl b.apiType b.predicates
        b.managedObjects).2 with
    | some e' =>
      simp [Builder.doWatch, hw, ho] at h
      exact h ▸ watchOwnedLoop_err env b.ctrl b.apiType b.predicates
        b.managedObjects e' ho
    | none =>
      simp only [Builder.doWatch, hw, ho] at h
      exact watchRequestLoop_err env b.ctrl b.predicates b.watchRequest e h

/-- Recognises ambient config-discovery calls in a trace. -/
def Event.isGetConfig : Event → Bool
  | getConfigCall => true
  | _ => false

/-- Recognises manager-construction calls in a trace. -/
def Event.isNewManager : Event → Bool
  | newManagerCall _ => true
  | _ => false

theorem doConfig_trace_events (b : Builder) (env : Env) (e : Event)
    (h : e ∈ (b.doConfig env).2.1) : e = Event.getConfigCall := by
  cases hc : b.config <;> cases hm : b.mgr <;>
    simp [Builder.doConfig, hc, hm] at h <;> simp [h]

theorem doManager_trace_events (b : Builder) (env : Env) (e : Event)
    (h : e ∈ (b.doManager env).2.1) : e = Event.newManagerCall b.config := by
  cases hm : b.mgr <;> simp [Builder.doManager, hm] at h <;> simp [h]

theorem doController_trace_events (b : Builder) (env : Env) (r : Reconciler)
    (e : Event) (h : e ∈ (b.doController env r).2.1) :
    ∃ n, e = Event.newControllerCall n b.mgr r := by
  cases hn : (b.getControllerName env).2 <;>
    simp [Builder.doController, hn] at h
  exact ⟨(b.getControllerName env).1, h⟩

theorem doWebhook_trace_events (b : Builder) (env : Env) (e : Event)
    (h : e ∈ (b.doWebhook env).1) :
    ∃ srv pa hd, e = Event.registerWebhook srv pa hd := by
  cases hg : (env.getGvk b.apiType (env.mgrGetScheme b.mgr)).2 <;>
    cases hd : env.isDefaulter b.apiType <;>
      cases hv : env.isValidator b.apiType <;>
        cases hdw : env.defaultingWebhookFor b.apiType <;>
          cases hvw : env.validatingWebhookFor b.apiType <;>
            simp [Builder.doWebhook, hg, hd, hv, hdw, hvw] at h <;>
              first
                | exact ⟨_, _, _, h⟩
                | (rcases h with h | h <;> exact ⟨_, _, _, h⟩)

theorem watchOwnedLoop_trace_events (env : Env) (ctrl : Option Controller)
    (ownerType : Object) (preds : List Predicate) (l : List Object) (e : Event)
    (h : e ∈ (watchOwnedLoop env ctrl ownerType preds l).1) :
    ∃ obj, e = Event.watchCall ctrl (Source.kind obj)
      (EventHandler.enqueueRequestForOwner ownerType true) preds := by
  induction l with
  | nil => simp [watchOwnedLoop] at h
  | cons obj rest ih =>
    cases hw : env.ctrlWatch ctrl (Source.kind obj)
        (EventHandler.enqueueRequestForOwner ownerType true) preds with
    | some e' =>
      simp [watchOwnedLoop, hw] at h
      exact ⟨obj, by simp [h]⟩
    | none =>
      simp only [watchOwnedLoop, hw, List.mem_cons] at h
      rcases h with h | h
      · exact ⟨obj, by simp [h]⟩
      · exact ih h

theorem watchRequestLoop_trace_events (env : Env) (ctrl : Option Controller)
    (preds : List Predicate) (l : List WatchRequest) (e : Event)
    (h : e ∈ (watchRequestLoop env ctrl preds l).1) :
    ∃ s hd, e = Event.watchCall ctrl s hd preds := by
  induction l with
  | nil => simp [watchRequestLoop] at h
  | cons w rest ih =>
    cases hw : env.ctrlWatch ctrl w.src w.eventhandler preds with
    | some e' =>
      simp [watchRequestLoop, hw] at h
      exact ⟨w.src, w.eventhandler, by simp [h]⟩
    | none =>
      simp only [watchRequestLoop, hw, List.mem_cons] at h
      rcases h with h | h
      · exact ⟨w.src, w.eventhandler, by simp [h]⟩
      · exact ih h

theorem doWatch_trace_events (b : Builder) (env : Env) (e : Event)
    (h : e ∈ (b.doWatch env).1) :
    ∃ c s hd, e = Event.watchCall c s hd b.predicates := by
  cases hw : env.ctrlWatch b.ctrl (Source.kind b.apiType)
      EventHandler.enqueueRequestForObject b.predicates with
  | some e' =>
    simp [Builder.doWatch, hw] at h
    exact ⟨_, _, _, h⟩
  | none =>
    cases ho : (watchOwnedLoop env b.ctrl b.apiType b.predicates
        b.managedObjects).2 with
    | some e' =>
      simp only [Builder.doWatch, hw, ho, List.mem_cons] at h
      rcases h with h | h
      · exact ⟨_, _, _, h⟩
      · obtain ⟨obj, rfl⟩ := watchOwnedLoop_trace_events env b.ctrl b.apiType
          b.predicates b.managedObjects e h
        exact ⟨b.ctrl, _, _, rfl⟩
    | none =>
      simp only [Builder.doWatch, hw, ho, List.mem_append, List.mem_cons] at h
      rcases h with (h | h) | h
      · exact ⟨_, _, _, h⟩
      · obtain ⟨obj, rfl⟩ := watchOwnedLoop_trace_events env b.ctrl b.apiType
          b.predicates b.managedObjects e h
        exact ⟨b.ctrl, _, _, rfl⟩
      · obtain ⟨s, hd, rfl⟩ := watchRequestLoop_trace_events env b.ctrl
          b.predicates b.watchRequest e h
        exact ⟨b.ctrl, s, hd, rfl⟩

theorem build_success_decomp (b : Builder) (env : Env) (r : Reconciler)
    (h : (b.Build env (some r)).err = none) :
    (b.Build env (some r)).trace =
      (b.doConfig env).2.1 ++
      ((b.doConfig env).1.doManager env).2.1 ++
      (((b.doConfig env).1.doManager env).1.doController env r).2.1 ++
      ((((b.doConfig env).1.doManager env).1.doController env r).1.doWebhook
        env).1 ++
      ((((b.doConfig env).1.doManager env).1.doController env r).1.doWatch
        env).1 ∧
    (b.Build env (some r)).blder =
      (((b.doConfig env).1.doManager env).1.doController env r).1 ∧
    (b.doConfig env).2.2 = none ∧
    ((b.doConfig env).1.doManager env).2.2 = none ∧
    (((b.doConfig env).1.doManager env).1.doController env r).2.2 = none ∧
    ((((b.doConfig env).1.doManager env).1.doController env r).1.doWebhook
      env).2 = none ∧
    ((((b.doConfig env).1.doManager env).1.doController env r).1.doWatch
      env).2 = none := by
  simp only [Builder.Build] at h ⊢
  cases h1 : (b.doConfig env).2.2 with
  | some e => simp [h1] at h
  | none =>
  cases h2 : ((b.doConfig env).1.doManager env).2.2 with
  | some e => simp [h1, h2] at h
  | none =>
  cases h3 : (((b.doConfig env).1.doManager env).1.doController env r).2.2 with
  | some e => simp [h1, h2, h3] at h
  | none =>
  cases h4 : ((((b.doConfig env).1.doManager env).1.doController env
      r).1.doWebhook env).2 with
  | some e => simp [h1, h2, h3, h4] at h
  | none =>
  cases h5 : ((((b.doConfig env).1.doManager env).1.doController env
      r).1.doWatch env).2 with
  | some e => simp [h1, h2, h3, h4, h5] at h
  | none => simp [h1, h2, h3, h4, h5]

theorem build_trace_shape (b : Builder) (env : Env) (r : Reconciler) :
    ∃ rest, (b.Build env (some r)).trace = (b.doConfig env).2.1 ++ rest ∧
      ∀ e ∈ rest,
        e ∈ ((b.doConfig env).1.doManager env).2.1 ∨
        e ∈ (((b.doConfig env).1.doManager env).1.doController env r).2.1 ∨
        e ∈ ((((b.doConfig env).1.doManager env).1.doController env
          r).1.doWebhook env).1 ∨
        e ∈ ((((b.doConfig env).1.doManager env).1.doController env
          r).1.doWatch env).1 := by
  simp only [Builder.Build]
  cases h1 : (b.doConfig env).2.2 with
  | some e => exact ⟨[], by simp⟩
  | none =>
  cases h2 : ((b.doConfig env).1.doManager env).2.2 with
  | some e =>
    refine ⟨((b.doConfig env).1.doManager env).2.1, by simp, ?_⟩
    intro e' he'
    exact Or.inl he'
  | none =>
  cases h3 : (((b.doConfig env).1.doManager env).1.doController env r).2.2 with
  | some e =>
    refine ⟨((b.doConfig env).1.doManager env).2.1 ++
      (((b.doConfig env).1.doManager env).1.doController env r).2.1,
      by simp, ?_⟩
    intro e' he'
    simp only [List.mem_append] at he'
    tauto
  | none =>
  cases h4 : ((((b.doConfig env).1.doManager env).1.doController env
      r).1.doWebhook env).2 with
  | some e =>
    refine ⟨((b.doConfig env).1.doManager env).2.1 ++
      (((b.doConfig env).1.doManager env).1.doController env r).2.1 ++
      ((((b.doConfig env).1.doManager env).1.doController env r).1.doWebhook
        env).1, by simp, ?_⟩
    intro e' he'
    simp only [List.mem_append] at he'
    tauto
  | none =>
  cases h5 : ((((b.doConfig env).1.doManager env).1.doController env
      r).1.doWatch env).2 with
  | some e =>
    refine ⟨((b.doConfig env).1.doManager env).2.1 ++
      (((b.doConfig env).1.doManager env).1.doController env r).2.1 ++
      ((((b.doConfig env).1.doManager env).1.doController env r).1.doWebhook
        env).1 ++
      ((((b.doConfig env).1.doManager env).1.doController env r).1.doWatch
        env).1, by simp, ?_⟩
    intro e' he'
    simp only [List.mem_append] at he'
    tauto
  | none =>
    refine ⟨((b.doConfig env).1.doManager env).2.1 ++
      (((b.doConfig env).1.doManager env).1.doController env r).2.1 ++
      ((((b.doConfig env).1.doManager env).1.doController env r).1.doWebhook
        env).1 ++
      ((((b.doConfig env).1.doManager env).1.doController env r).1.doWatch
        env).1, by simp, ?_⟩
    intro e' he'
    simp only [List.mem_append] at he'
    tauto

theorem specWatchEvents_all_watch (ctrl : Option Controller) (apiType : Object)
    (mo : List Object) (wr : List WatchRequest) (p : List Predicate) :
    ∀ e ∈ specWatchEvents ctrl apiType mo wr p, e.isWatch = true := by
  intro e he
  simp only [specWatchEvents, List.mem_cons, List.mem_append,
    List.mem_map] at he
  rcases he with rfl | ⟨obj, _, rfl⟩ | ⟨w, _, rfl⟩ <;> rfl

theorem specWatchEvents_preds (ctrl : Option Controller) (apiType : Object)
    (mo : List Object) (wr : List WatchRequest) (p : List Predicate)
    (c : Option Controller) (s : Source) (hd : EventHandler)
    (q : List Predicate)
    (h : Event.watchCall c s hd q ∈ specWatchEvents ctrl apiType mo wr p) :
    q = p := by
  simp only [specWatchEvents, List.mem_cons, List.mem_append,
    List.mem_map] at h
  rcases h with h | ⟨obj, _, h⟩ | ⟨w, _, h⟩ <;>
    injection h with h₁ h₂ h₃ h₄ <;> simp [h₄]

/-! ### Claim theorems -/

/-- C6: for every builder state, finalize (`Build`/`Complete`) with a nil
reconciler returns the missing-reconciler error, records no external call
(so none of the config/manager/controller/webhook/watch sub-steps runs) and
leaves every builder field unchanged. -/
theorem build_nil_reconciler (b : Builder) (env : Env) :
    b.Build env none = ⟨b, [], none, some missingReconcilerErr⟩ ∧
    b.Complete env none = some missingReconcilerErr :=
  ⟨rfl, rfl⟩

/-- C9: each setter returns the builder with only its own field modified —
`For`/`ForType` overwrite the reconciled-type field, `Owns`, `Watches` and
`WithEventFilter` append one element to their list, `WithConfig` and
`WithManager` overwrite their field — and every other field is unchanged. -/
theorem setters_modify_only_their_field (b : Builder) (t o : Object)
    (s : Source) (hd : EventHandler) (c : Option Config) (m : Option Manager)
    (p : Predicate) :
    ((b.For t).apiType = t ∧ (b.For t).mgr = b.mgr ∧
      (b.For t).predicates = b.predicates ∧
      (b.For t).managedObjects = b.managedObjects ∧
      (b.For t).watchRequest = b.watchRequest ∧
      (b.For t).config = b.config ∧ (b.For t).ctrl = b.ctrl) ∧
    b.ForType t = b.For t ∧
    ((b.Owns o).managedObjects = b.managedObjects ++ [o] ∧
      (b.Owns o).apiType = b.apiType ∧ (b.Owns o).mgr = b.mgr ∧
      (b.Owns o).predicates = b.predicates ∧
      (b.Owns o).watchRequest = b.watchRequest ∧
      (b.Owns o).config = b.config ∧ (b.Owns o).ctrl = b.ctrl) ∧
    ((b.Watches s hd).watchRequest = b.watchRequest ++ [⟨s, hd⟩] ∧
      (b.Watches s hd).apiType = b.apiType ∧ (b.Watches s hd).mgr = b.mgr ∧
      (b.Watches s hd).predicates = b.predicates ∧
      (b.Watches s hd).managedObjects = b.managedObjects ∧
      (b.Watches s hd).config = b.config ∧ (b.Watches s hd).ctrl = b.ctrl) ∧
    ((b.WithConfig c).config = c ∧
      (b.WithConfig c).apiType = b.apiType ∧ (b.WithConfig c).mgr = b.mgr ∧
      (b.WithConfig c).predicates = b.predicates ∧
      (b.WithConfig c).managedObjects = b.managedObjects ∧
      (b.WithConfig c).watchRequest = b.watchRequest ∧
      (b.WithConfig c).ctrl = b.ctrl) ∧
    ((b.WithManager m).mgr = m ∧
      (b.WithManager m).apiType = b.apiType ∧
      (b.WithManager m).predicates = b.predicates ∧
      (b.WithManager m).managedObjects = b.managedObjects ∧
      (b.WithManager m).watchRequest = b.watchRequest ∧
      (b.WithManager m).config = b.config ∧ (b.WithManager m).ctrl = b.ctrl) ∧
    ((b.WithEventFilter p).predicates = b.predicates ++ [p] ∧
      (b.WithEventFilter p).apiType = b.apiType ∧
      (b.WithEventFilter p).mgr = b.mgr ∧
      (b.WithEventFilter p).managedObjects = b.managedObjects ∧
      (b.WithEventFilter p).watchRequest = b.watchRequest ∧
      (b.WithEventFilter p).config = b.config ∧
      (b.WithEventFilter p).ctrl = b.ctrl) :=
  ⟨⟨rfl, rfl, rfl, rfl, rfl, rfl, rfl⟩, rfl,
    ⟨rfl, rfl, rfl, rfl, rfl, rfl, rfl⟩,
    ⟨rfl, rfl, rfl, rfl, rfl, rfl, rfl⟩,
    ⟨rfl, rfl, rfl, rfl, rfl, rfl, rfl⟩,
    ⟨rfl, rfl, rfl, rfl, rfl, rfl, rfl⟩,
    ⟨rfl, rfl, rfl, rfl, rfl, rfl, rfl⟩⟩

/-- C1: config resolution precedence — an explicit config is kept verbatim and
the ambient discovery service is never invoked (not even elsewhere in
finalize); with no config but a manager set, the manager's own config is used
verbatim and the ambient service is again never invoked; with neither set, the
ambient service is invoked exactly once (in `doConfig`, and exactly once over
the whole of finalize) and its result becomes the builder's config. -/
theorem doConfig_resolution_precedence (b₁ b₂ b₃ : Builder) (env : Env)
    (c : Config) (m : Manager) (r : Reconciler)
    (h₁ : b₁.config = some c)
    (h₂c : b₂.config = none) (h₂m : b₂.mgr = some m)
    (h₃c : b₃.config = none) (h₃m : b₃.mgr = none) :
    b₁.doConfig env = (b₁, [], none) ∧
    (∀ e ∈ (b₁.Build env (some r)).trace, e.isGetConfig = false) ∧
    b₂.doConfig env =
      ({ b₂ with config := some (env.mgrGetConfig (some m)) }, [], none) ∧
    (∀ e ∈ (b₂.Build env (some r)).trace, e.isGetConfig = false) ∧
    (b₃.doConfig env).2.1 = [Event.getConfigCall] ∧
    (b₃.doConfig env).1 = { b₃ with config := env.getConfig.1 } ∧
    (b₃.doConfig env).2.2 = env.getConfig.2 ∧
    (b₃.Build env (some r)).trace.count Event.getConfigCall = 1 := by
  have hd₁ : b₁.doConfig env = (b₁, [], none) := by
    simp [Builder.doConfig, h₁]
  have hd₂ : b₂.doConfig env =
      ({ b₂ with config := some (env.mgrGetConfig (some m)) }, [], none) := by
    simp [Builder.doConfig, h₂c, h₂m]
  have hd₃ : b₃.doConfig env =
      ({ b₃ with config := env.getConfig.1 }, [Event.getConfigCall],
        env.getConfig.2) := by
    simp [Builder.doConfig, h₃c, h₃m]
  have hrest : ∀ b' : Builder, ∀ e ∈ (b'.Build env (some r)).trace,
      e ∉ (b'.doConfig env).2.1 → e.isGetConfig = false := by
    intro b' e he hnot
    obtain ⟨rest, htr, hmem⟩ := build_trace_shape b' env r
    rw [htr] at he
    rcases List.mem_append.1 he with h | h
    · exact absurd h hnot
    · rcases hmem e h with h' | h' | h' | h'
      · rw [doManager_trace_events _ _ _ h']; rfl
      · obtain ⟨n, rfl⟩ := doController_trace_events _ _ _ _ h'; rfl
      · obtain ⟨srv, pa, hh, rfl⟩ := doWebhook_trace_events _ _ _ h'; rfl
      · obtain ⟨cc, ss, hh, rfl⟩ := doWatch_trace_events _ _ _ h'; rfl
  refine ⟨hd₁, ?_, hd₂, ?_, by rw [hd₃], by rw [hd₃], by rw [hd₃], ?_⟩
  · intro e he
    exact hrest b₁ e he (by rw [hd₁]; simp)
  · intro e he
    exact hrest b₂ e he (by rw [hd₂]; simp)
  · obtain ⟨rest, htr, hmem⟩ := build_trace_shape b₃ env r
    rw [htr, List.count_append, hd₃]
    have hz : rest.count Event.getConfigCall = 0 := by
      rw [List.count_eq_zero]
      intro hcontra
      rcases hmem _ hcontra with h' | h' | h' | h'
      · exact absurd (doManager_trace_events _ _ _ h') (by simp)
      · obtain ⟨n, hn⟩ := doController_trace_events _ _ _ _ h'
        exact absurd hn (by simp)
      · obtain ⟨srv, pa, hh, hn⟩ := doWebhook_trace_events _ _ _ h'
        exact absurd hn (by simp)
      · obtain ⟨cc, ss, hh, hn⟩ := doWatch_trace_events _ _ _ h'
        exact absurd hn (by simp)
    simp [hz]

/-- Witness for C1: a builder with an explicit config, one with only a manager,
and the empty builder, run against `sampleEnv` with reconciler 1. -/
theorem doConfig_resolution_precedence_witness :
    ({ config := some 5 } : Builder).doConfig sampleEnv =
      ({ config := some 5 }, [], none) ∧
    (∀ e ∈ (({ config := some 5 } : Builder).Build sampleEnv (some 1)).trace,
      e.isGetConfig = false) ∧
    ({ mgr := some 3 } : Builder).doConfig sampleEnv =
      ({ ({ mgr := some 3 } : Builder) with
          config := some (sampleEnv.mgrGetConfig (some 3)) }, [], none) ∧
    (∀ e ∈ (({ mgr := some 3 } : Builder).Build sampleEnv (some 1)).trace,
      e.isGetConfig = false) ∧
    (SimpleController.doConfig sampleEnv).2.1 = [Event.getConfigCall] ∧
    (SimpleController.doConfig sampleEnv).1 =
      { SimpleController with config := sampleEnv.getConfig.1 } ∧
    (SimpleController.doConfig sampleEnv).2.2 = sampleEnv.getConfig.2 ∧
    (SimpleController.Build sampleEnv (some 1)).trace.count
      Event.getConfigCall = 1 :=
  doConfig_resolution_precedence { config := some 5 } { mgr := some 3 }
    SimpleController sampleEnv 5 3 1 rfl rfl rfl rfl rfl

/-- C7: if a manager was set before finalize, no new manager is ever
constructed (no manager-construction call appears anywhere in the finalize
trace); otherwise `doManager` performs exactly one construction call, passing
the builder's resolved config, and stores its result. -/
theorem doManager_reuse_or_construct (b₁ b₂ : Builder) (env : Env)
    (m : Manager) (r : Reconciler)
    (h₁ : b₁.mgr = some m) (h₂ : b₂.mgr = none) :
    b₁.doManager env = (b₁, [], none) ∧
    (∀ e ∈ (b₁.Build env (some r)).trace, e.isNewManager = false) ∧
    (b₂.doManager env).2.1 = [Event.newManagerCall b₂.config] ∧
    (b₂.doManager env).1 = { b₂ with mgr := (env.newManager b₂.config).1 } ∧
    (b₂.doManager env).2.2 = (env.newManager b₂.config).2 := by
  have hd₁ : b₁.doManager env = (b₁, [], none) := by
    simp [Builder.doManager, h₁]
  have hd₂ : b₂.doManager env =
      ({ b₂ with mgr := (env.newManager b₂.config).1 },
        [Event.newManagerCall b₂.config], (env.newManager b₂.config).2) := by
    simp [Builder.doManager, h₂]
  refine ⟨hd₁, ?_, by rw [hd₂], by rw [hd₂], by rw [hd₂]⟩
  intro e he
  obtain ⟨rest, htr, hmem⟩ := build_trace_shape b₁ env r
  rw [htr] at he
  rcases List.mem_append.1 he with h | h
  · rw [doConfig_trace_events _ _ _ h]; rfl
  · rcases hmem e h with h' | h' | h' | h'
    · have hmgr : (b₁.doConfig env).1.mgr = some m :=
        (doConfig_frame b₁ env).2.1.trans h₁
      have : ((b₁.doConfig env).1.doManager env).2.1 = [] := by
        simp [Builder.doManager, hmgr]
      rw [this] at h'
      exact absurd h' (List.not_mem_nil e)
    · obtain ⟨n, rfl⟩ := doController_trace_events _ _ _ _ h'; rfl
    · obtain ⟨srv, pa, hh, rfl⟩ := doWebhook_trace_events _ _ _ h'; rfl
    · obtain ⟨cc, ss, hh, rfl⟩ := doWatch_trace_events _ _ _ h'; rfl

/-- Witness for C7: a builder with a manager and one without, on `sampleEnv`. -/
theorem doManager_reuse_or_construct_witness :
    ({ mgr := some 3 } : Builder).doManager sampleEnv =
      ({ mgr := some 3 }, [], none) ∧
    (∀ e ∈ (({ mgr := some 3 } : Builder).Build sampleEnv (some 1)).trace,
      e.isNewManager = false) ∧
    (({ config := some 5 } : Builder).doManager sampleEnv).2.1 =
      [Event.newManagerCall (some 5)] ∧
    (({ config := some 5 } : Builder).doManager sampleEnv).1 =
      { ({ config := some 5 } : Builder) with
          mgr := (sampleEnv.newManager (some 5)).1 } ∧
    (({ config := some 5 } : Builder).doManager sampleEnv).2.2 =
      (sampleEnv.newManager (some 5)).2 :=
  doManager_reuse_or_construct { mgr := some 3 } { config := some 5 }
    sampleEnv 3 1 rfl rfl

/-- C8: when the reconciled type's GVK resolves, the controller name is the
lower-cased kind suffixed with `-application`, and `doController` passes
exactly that name to the controller constructor. -/
theorem controller_name_formula (b : Builder) (env : Env) (gvk : GVK)
    (r : Reconciler)
    (hg : env.getGvk b.apiType (env.mgrGetScheme b.mgr) = (gvk, none)) :
    b.getControllerName env = (goToLower gvk.kind ++ "-application", none) ∧
    (b.doController env r).2.1 =
      [Event.newControllerCall (goToLower gvk.kind ++ "-application")
        b.mgr r] := by
  have hn : b.getControllerName env =
      (goToLower gvk.kind ++ "-application", none) := by
    simp [Builder.getControllerName, hg]
  exact ⟨hn, by simp [Builder.doController, hn]⟩

/-- Witness for C8: kind `Widget` yields controller name `widget-application`. -/
theorem controller_name_formula_witness :
    ({ mgr := some 3 } : Builder).getControllerName
      { sampleEnv with getGvk := fun _ _ => (⟨"apps", "v1", "Widget"⟩, none) } =
      ("widget-application", none) ∧
    (({ mgr := some 3 } : Builder).doController
      { sampleEnv with getGvk := fun _ _ => (⟨"apps", "v1", "Widget"⟩, none) }
      1).2.1 =
      [Event.newControllerCall "widget-application" (some 3) 1] :=
  controller_name_formula { mgr := some 3 }
    { sampleEnv with getGvk := fun _ _ => (⟨"apps", "v1", "Widget"⟩, none) }
    ⟨"apps", "v1", "Widget"⟩ 1 rfl

/-- An environment whose reconciled types support neither webhook capability. -/
def envNoCapability : Env :=
  { sampleEnv with
      isDefaulter := fun _ => false
      isValidator := fun _ => false }

/-- C2: for a reconciled type whose GVK resolves to group G, version V, kind K
and which supports both capabilities (each constructor yielding a handler),
`doWebhook` registers exactly two paths on the manager's webhook server —
`/mutate-` then G with dots replaced by hyphens, `-`, V, `-`, the lower-cased
K, and `/validate-` with the same suffix, in that order; for a type supporting
neither capability, zero webhooks are registered. -/
theorem doWebhook_registered_paths (b₁ b₂ : Builder) (env₁ env₂ : Env)
    (gvk : GVK) (mwh vwh : WebhookHandler)
    (h₁g : env₁.getGvk b₁.apiType (env₁.mgrGetScheme b₁.mgr) = (gvk, none))
    (h₁d : env₁.isDefaulter b₁.apiType = true)
    (h₁dw : env₁.defaultingWebhookFor b₁.apiType = some mwh)
    (h₁v : env₁.isValidator b₁.apiType = true)
    (h₁vw : env₁.validatingWebhookFor b₁.apiType = some vwh)
    (h₂g : (env₂.getGvk b₂.apiType (env₂.mgrGetScheme b₂.mgr)).2 = none)
    (h₂d : env₂.isDefaulter b₂.apiType = false)
    (h₂v : env₂.isValidator b₂.apiType = false) :
    b₁.doWebhook env₁ =
      ([Event.registerWebhook (env₁.mgrGetWebhookServer b₁.mgr)
          ("/mutate-" ++ (goDotsToHyphens gvk.group ++ "-" ++ gvk.version ++
            "-" ++ goToLower gvk.kind)) mwh,
        Event.registerWebhook (env₁.mgrGetWebhookServer b₁.mgr)
          ("/validate-" ++ (goDotsToHyphens gvk.group ++ "-" ++ gvk.version ++
            "-" ++ goToLower gvk.kind)) vwh], none) ∧
    b₂.doWebhook env₂ = ([], none) := by
  constructor
  · simp [Builder.doWebhook, h₁g, h₁d, h₁dw, h₁v, h₁vw]
  · simp [Builder.doWebhook, h₂g, h₂d, h₂v]

/-- Witness for C2: group `apps.example.com`, version `v1`, kind `Foo` yields
the two documented paths; the capability-free type registers nothing. -/
theorem doWebhook_registered_paths_witness :
    ({ apiType := 1, mgr := some 3 } : Builder).doWebhook sampleEnv =
      ([Event.registerWebhook 9 "/mutate-apps-example-com-v1-foo" 11,
        Event.registerWebhook 9 "/validate-apps-example-com-v1-foo" 12],
        none) ∧
    ({ apiType := 1, mgr := some 3 } : Builder).doWebhook envNoCapability =
      ([], none) :=
  doWebhook_registered_paths { apiType := 1, mgr := some 3 }
    { apiType := 1, mgr := some 3 } sampleEnv envNoCapability sampleGvk 11 12
    rfl rfl rfl rfl rfl rfl rfl rfl

/-- C10: if a capability is present but its webhook constructor returns a nil
handler, the corresponding webhook is not registered and the webhook step
still succeeds; only non-nil constructed handlers are registered (shown for
both constructors nil, only the defaulting one nil, and only the validating
one nil). -/
theorem doWebhook_nil_handler_skipped (b₁ b₂ b₃ : Builder)
    (env₁ env₂ env₃ : Env) (g₁ g₂ g₃ : GVK) (vwh mwh : WebhookHandler)
    (h₁g : env₁.getGvk b₁.apiType (env₁.mgrGetScheme b₁.mgr) = (g₁, none))
    (h₁d : env₁.isDefaulter b₁.apiType = true)
    (h₁dw : env₁.defaultingWebhookFor b₁.apiType = none)
    (h₁v : env₁.isValidator b₁.apiType = true)
    (h₁vw : env₁.validatingWebhookFor b₁.apiType = none)
    (h₂g : env₂.getGvk b₂.apiType (env₂.mgrGetScheme b₂.mgr) = (g₂, none))
    (h₂d : env₂.isDefaulter b₂.apiType = true)
    (h₂dw : env₂.defaultingWebhookFor b₂.apiType = none)
    (h₂v : env₂.isValidator b₂.apiType = true)
    (h₂vw : env₂.validatingWebhookFor b₂.apiType = some vwh)
    (h₃g : env₃.getGvk b₃.apiType (env₃.mgrGetScheme b₃.mgr) = (g₃, none))
    (h₃d : env₃.isDefaulter b₃.apiType = true)
    (h₃dw : env₃.defaultingWebhookFor b₃.apiType = some mwh)
    (h₃v : env₃.isValidator b₃.apiType = true)
    (h₃vw : env₃.validatingWebhookFor b₃.apiType = none) :
    b₁.doWebhook env₁ = ([], none) ∧
    b₂.doWebhook env₂ =
      ([Event.registerWebhook (env₂.mgrGetWebhookServer b₂.mgr)
          ("/validate-" ++ (goDotsToHyphens g₂.group ++ "-" ++ g₂.version ++
            "-" ++ goToLower g₂.kind)) vwh], none) ∧
    b₃.doWebhook env₃ =
      ([Event.registerWebhook (env₃.mgrGetWebhookServer b₃.mgr)
          ("/mutate-" ++ (goDotsToHyphens g₃.group ++ "-" ++ g₃.version ++
            "-" ++ goToLower g₃.kind)) mwh], none) := by
  refine ⟨?_, ?_, ?_⟩
  · simp [Builder.doWebhook, h₁g, h₁d, h₁dw, h₁v, h₁vw]
  · simp [Builder.doWebhook, h₂g, h₂d, h₂dw, h₂v, h₂vw]
  · simp [Builder.doWebhook, h₃g, h₃d, h₃dw, h₃v, h₃vw]

/-- An environment whose webhook constructors yield nil handlers. -/
def envNilHandlers : Env :=
  { sampleEnv with
      defaultingWebhookFor := fun _ => none
      validatingWebhookFor := fun _ => none }

/-- Witness for C10 on concrete environments derived from `sampleEnv`. -/
theorem doWebhook_nil_handler_skipped_witness :
    ({ mgr := some 3 } : Builder).doWebhook envNilHandlers = ([], none) ∧
    ({ mgr := some 3 } : Builder).doWebhook
      { sampleEnv with defaultingWebhookFor := fun _ => none } =
      ([Event.registerWebhook 9 "/validate-apps-example-com-v1-foo" 12],
        none) ∧
    ({ mgr := some 3 } : Builder).doWebhook
      { sampleEnv with validatingWebhookFor := fun _ => none } =
      ([Event.registerWebhook 9 "/mutate-apps-example-com-v1-foo" 11],
        none) :=
  doWebhook_nil_handler_skipped { mgr := some 3 } { mgr := some 3 }
    { mgr := some 3 } envNilHandlers
    { sampleEnv with defaultingWebhookFor := fun _ => none }
    { sampleEnv with validatingWebhookFor := fun _ => none }
    sampleGvk sampleGvk sampleGvk 12 11
    rfl rfl rfl rfl rfl rfl rfl rfl rfl rfl rfl rfl rfl rfl rfl

/-- An environment where GVK resolution fails. -/
def envGvkFail : Env :=
  { sampleEnv with getGvk := fun _ _ => (sampleGvk, some "boom") }

/-- C5 counterexample: at a concrete builder and environment where GVK
resolution fails, `doWebhook` does not ignore the error — it returns it
verbatim, registers nothing, and finalize fails with it rather than
succeeding. -/
theorem doWebhook_gvk_error_counterexample :
    ({ mgr := some 3 } : Builder).doWebhook envGvkFail = ([], some "boom") ∧
    (({ mgr := some 3 } : Builder).Build envGvkFail (some 1)).err =
      some "boom" :=
  ⟨rfl, rfl⟩

/-- C5 (amended): in `doWebhook` a GVK-resolution error is returned
immediately — nothing is registered and the step fails with the error
verbatim; the trailing `return err` of the outer-scope variable always
returns exactly the GVK-resolution error (nil precisely when resolution
succeeded), so no error is swallowed. -/
theorem doWebhook_gvk_error_returned (b b' : Builder) (env env' : Env)
    (e : Err)
    (h : (env.getGvk b.apiType (env.mgrGetScheme b.mgr)).2 = some e) :
    b.doWebhook env = ([], some e) ∧
    (b'.doWebhook env').2 =
      (env'.getGvk b'.apiType (env'.mgrGetScheme b'.mgr)).2 := by
  constructor
  · simp [Builder.doWebhook, h]
  · cases hg : (env'.getGvk b'.apiType (env'.mgrGetScheme b'.mgr)).2 <;>
      simp [Builder.doWebhook, hg]

/-- Witness for C5's amended theorem at `envGvkFail` and `sampleEnv`. -/
theorem doWebhook_gvk_error_returned_witness :
    ({ mgr := some 3 } : Builder).doWebhook envGvkFail =
      ([], some "boom") ∧
    (builderFull.doWebhook sampleEnv).2 =
      (sampleEnv.getGvk builderFull.apiType
        (sampleEnv.mgrGetScheme builderFull.mgr)).2 :=
  doWebhook_gvk_error_returned { mgr := some 3 } builderFull envGvkFail
    sampleEnv "boom" rfl

/-- C3: when finalize succeeds, the watch registrations in its trace are
exactly: the reconciled-type watch with the enqueue-for-this-object handler
first, then one owner-indexed watch (controller-owner handler for the
reconciled type) per owned type in insertion order, then each free-form watch
request in insertion order — `1 + |Owns| + |Watches|` calls in total — and
every watch call in the trace receives the full accumulated filter list. -/
theorem build_watch_registration (b : Builder) (env : Env) (r : Reconciler)
    (h : (b.Build env (some r)).err = none) :
    (b.Build env (some r)).trace.filter Event.isWatch =
      specWatchEvents (b.Build env (some r)).blder.ctrl b.apiType
        b.managedObjects b.watchRequest b.predicates ∧
    ((b.Build env (some r)).trace.filter Event.isWatch).length =
      1 + b.managedObjects.length + b.watchRequest.length ∧
    ∀ c s hd p, Event.watchCall c s hd p ∈ (b.Build env (some r)).trace →
      p = b.predicates := by
  obtain ⟨htr, hbl, _, _, _, _, h5⟩ := build_success_decomp b env r h
  have hfc := doConfig_frame b env
  have hfm := doManager_frame (b.doConfig env).1 env
  have hfk := doController_frame ((b.doConfig env).1.doManager env).1 env r
  set b3 := (((b.doConfig env).1.doManager env).1.doController env r).1
    with hb3
  have hapi : b3.apiType = b.apiType := by
    rw [hb3, hfk.1, hfm.1, hfc.1]
  have hpreds : b3.predicates = b.predicates := by
    rw [hb3, hfk.2.2.1, hfm.2.1, hfc.2.2.1]
  have hmo : b3.managedObjects = b.managedObjects := by
    rw [hb3, hfk.2.2.2.1, hfm.2.2.1, hfc.2.2.2.1]
  have hwr : b3.watchRequest = b.watchRequest := by
    rw [hb3, hfk.2.2.2.2.1, hfm.2.2.2.1, hfc.2.2.2.2.1]
  have hw5 : (b3.doWatch env).1 =
      specWatchEvents b3.ctrl b3.apiType b3.managedObjects b3.watchRequest
        b3.predicates := doWatch_success_trace b3 env h5
  have hmain : (b.Build env (some r)).trace.filter Event.isWatch =
      specWatchEvents (b.Build env (some r)).blder.ctrl b.apiType
        b.managedObjects b.watchRequest b.predicates := by
    rw [htr]
    simp only [List.filter_append]
    rw [doConfig_trace_no_watch, doManager_trace_no_watch,
      doController_trace_no_watch, doWebhook_trace_no_watch]
    have hfil : (b3.doWatch env).1.filter Event.isWatch =
        (b3.doWatch env).1 := by
      rw [List.filter_eq_self]
      intro e he
      rw [hw5] at he
      exact specWatchEvents_all_watch _ _ _ _ _ e he
    rw [hfil, hw5, hbl, hapi, hpreds, hmo, hwr]
    simp
  refine ⟨hmain, ?_, ?_⟩
  · rw [hmain]
    simp only [specWatchEvents, List.length_cons, List.length_append,
      List.length_map]
    omega
  · intro c s hd p hmem
    rw [htr] at hmem
    simp only [List.mem_append] at hmem
    rcases hmem with (((hm | hm) | hm) | hm) | hm
    · exact absurd (doConfig_trace_events _ _ _ hm) (by simp)
    · have := doManager_trace_events _ _ _ hm
      exact absurd this (by simp)
    · obtain ⟨n, hn⟩ := doController_trace_events _ _ _ _ hm
      exact absurd hn (by simp)
    · obtain ⟨srv, pa, hh, hn⟩ := doWebhook_trace_events _ _ _ hm
      exact absurd hn (by simp)
    · obtain ⟨cc, ss, hh, hn⟩ := doWatch_trace_events _ _ _ hm
      rw [hpreds] at hn
      injection hn with hn₁ hn₂ hn₃ hn₄

/-- Witness for C3: the fully populated builder against `sampleEnv`. -/
theorem build_watch_registration_witness :
    (builderFull.Build sampleEnv (some 1)).trace.filter Event.isWatch =
      specWatchEvents (builderFull.Build sampleEnv (some 1)).blder.ctrl
        builderFull.apiType builderFull.managedObjects
        builderFull.watchRequest builderFull.predicates ∧
    ((builderFull.Build sampleEnv (some 1)).trace.filter
      Event.isWatch).length =
      1 + builderFull.managedObjects.length +
        builderFull.watchRequest.length ∧
    (∀ c s hd p,
      Event.watchCall c s hd p ∈ (builderFull.Build sampleEnv (some 1)).trace →
        p = builderFull.predicates) :=
  build_watch_registration builderFull sampleEnv 1 rfl

/-- C4: finalize is fail-fast with verbatim error propagation.  Shown through
five failing scenarios — config discovery, manager construction, GVK
resolution, controller construction, and a watch registration — where the
error comes back unmodified and the trace stops before any call of a later
step, together with an error-provenance property: every error a finalize with
a non-nil reconciler returns is verbatim the value of one of the external
calls (so the nil-reconciler error is the only one the builder constructs
itself; webhook registration itself returns no error in the source). -/
theorem build_failfast_verbatim (b₁ b₂ b₃ b₄ b₅ bP : Builder)
    (env₁ env₂ env₃ env₄ env₅ envP : Env) (r : Reconciler)
    (e₁ e₂ e₃ e₄ e₅ eP : Err) (c₂ : Config) (m₃ m₄ m₅ : Manager)
    (g₄ g₅ : GVK) (ct₅ : Controller)
    (h₁c : b₁.config = none) (h₁m : b₁.mgr = none)
    (h₁e : env₁.getConfig.2 = some e₁)
    (h₂c : b₂.config = some c₂) (h₂m : b₂.mgr = none)
    (h₂e : (env₂.newManager (some c₂)).2 = some e₂)
    (h₃m : b₃.mgr = some m₃)
    (h₃e : (env₃.getGvk b₃.apiType (env₃.mgrGetScheme (some m₃))).2 = some e₃)
    (h₄m : b₄.mgr = some m₄)
    (h₄g : env₄.getGvk b₄.apiType (env₄.mgrGetScheme (some m₄)) = (g₄, none))
    (h₄e : (env₄.newController (goToLower g₄.kind ++ "-application") (some m₄)
      r).2 = some e₄)
    (h₅m : b₅.mgr = some m₅)
    (h₅g : env₅.getGvk b₅.apiType (env₅.mgrGetScheme (some m₅)) = (g₅, none))
    (h₅n : env₅.newController (goToLower g₅.kind ++ "-application") (some m₅)
      r = (some ct₅, none))
    (h₅d : env₅.isDefaulter b₅.apiType = false)
    (h₅v : env₅.isValidator b₅.apiType = false)
    (h₅e : env₅.ctrlWatch (some ct₅) (Source.kind b₅.apiType)
      EventHandler.enqueueRequestForObject b₅.predicates = some e₅)
    (hP : (bP.Build envP (some r)).err = some eP) :
    ((b₁.Build env₁ (some r)).err = some e₁ ∧
      (b₁.Build env₁ (some r)).trace = [Event.getConfigCall]) ∧
    ((b₂.Build env₂ (some r)).err = some e₂ ∧
      (b₂.Build env₂ (some r)).trace = [Event.newManagerCall (some c₂)]) ∧
    ((b₃.Build env₃ (some r)).err = some e₃ ∧
      (b₃.Build env₃ (some r)).trace = []) ∧
    ((b₄.Build env₄ (some r)).err = some e₄ ∧
      (b₄.Build env₄ (some r)).trace =
        [Event.newControllerCall (goToLower g₄.kind ++ "-application")
          (some m₄) r]) ∧
    ((b₅.Build env₅ (some r)).err = some e₅ ∧
      (b₅.Build env₅ (some r)).trace =
        [Event.newControllerCall (goToLower g₅.kind ++ "-application")
          (some m₅) r,
         Event.watchCall (some ct₅) (Source.kind b₅.apiType)
           EventHandler.enqueueRequestForObject b₅.predicates]) ∧
    (envP.getConfig.2 = some eP ∨
      (∃ cc, (envP.newManager cc).2 = some eP) ∨
      (∃ o sc, (envP.getGvk o sc).2 = some eP) ∨
      (∃ n mg, (envP.newController n mg r).2 = some eP) ∨
      ∃ ct sr hd pd, envP.ctrlWatch ct sr hd pd = some eP) := by
  have s1 : (b₁.Build env₁ (some r)).err = some e₁ ∧
      (b₁.Build env₁ (some r)).trace = [Event.getConfigCall] := by
    have hd : b₁.doConfig env₁ =
        ({ b₁ with config := env₁.getConfig.1 }, [Event.getConfigCall],
          some e₁) := by
      simp [Builder.doConfig, h₁c, h₁m, h₁e]
    simp [Builder.Build, hd]
  have s2 : (b₂.Build env₂ (some r)).err = some e₂ ∧
      (b₂.Build env₂ (some r)).trace = [Event.newManagerCall (some c₂)] := by
    have hc : b₂.doConfig env₂ = (b₂, [], none) := by
      simp [Builder.doConfig, h₂c]
    have hm : b₂.doManager env₂ =
        ({ b₂ with mgr := (env₂.newManager (some c₂)).1 },
          [Event.newManagerCall (some c₂)], some e₂) := by
      simp [Builder.doManager, h₂m, h₂c, h₂e]
    simp [Builder.Build, hc, hm]
  have s3 : (b₃.Build env₃ (some r)).err = some e₃ ∧
      (b₃.Build env₃ (some r)).trace = [] := by
    have hc : (b₃.doConfig env₃).2.1 = [] ∧ (b₃.doConfig env₃).2.2 = none := by
      cases hcc : b₃.config <;> simp [Builder.doConfig, hcc, h₃m]
    have hf : (b₃.doConfig env₃).1.mgr = some m₃ :=
      (doConfig_frame b₃ env₃).2.1.trans h₃m
    have ha : (b₃.doConfig env₃).1.apiType = b₃.apiType :=
      (doConfig_frame b₃ env₃).1
    have hman : (b₃.doConfig env₃).1.doManager env₃ =
        ((b₃.doConfig env₃).1, [], none) := by
      simp [Builder.doManager, hf]
    have hname : ((b₃.doConfig env₃).1.getControllerName env₃).2 =
        some e₃ := by
      simp [Builder.getControllerName, ha, hf, h₃e]
    have hctrl : (b₃.doConfig env₃).1.doController env₃ r =
        ((b₃.doConfig env₃).1, [], some e₃) := by
      simp [Builder.doController, hname]
    simp [Builder.Build, hc.1, hc.2, hman, hctrl]
  have s4 : (b₄.Build env₄ (some r)).err = some e₄ ∧
      (b₄.Build env₄ (some r)).trace =
        [Event.newControllerCall (goToLower g₄.kind ++ "-application")
          (some m₄) r] := by
    have hc : (b₄.doConfig env₄).2.1 = [] ∧ (b₄.doConfig env₄).2.2 = none := by
      cases hcc : b₄.config <;> simp [Builder.doConfig, hcc, h₄m]
    have hf : (b₄.doConfig env₄).1.mgr = some m₄ :=
      (doConfig_frame b₄ env₄).2.1.trans h₄m
    have ha : (b₄.doConfig env₄).1.apiType = b₄.apiType :=
      (doConfig_frame b₄ env₄).1
    have hman : (b₄.doConfig env₄).1.doManager env₄ =
        ((b₄.doConfig env₄).1, [], none) := by
      simp [Builder.doManager, hf]
    have hname : (b₄.doConfig env₄).1.getControllerName env₄ =
        (goToLower g₄.kind ++ "-application", none) := by
      simp [Builder.getControllerName, ha, hf, h₄g]
    have hctrl : ((b₄.doConfig env₄).1.doController env₄ r).2 =
        ([Event.newControllerCall (goToLower g₄.kind ++ "-application")
          (some m₄) r], some e₄) := by
      simp [Builder.doController, hname, hf, h₄e]
    simp [Builder.Build, hc.1, hc.2, hman, hctrl]
  have s5 : (b₅.Build env₅ (some r)).err = some e₅ ∧
      (b₅.Build env₅ (some r)).trace =
        [Event.newControllerCall (goToLower g₅.kind ++ "-application")
          (some m₅) r,
         Event.watchCall (some ct₅) (Source.kind b₅.apiType)
           EventHandler.enqueueRequestForObject b₅.predicates] := by
    have hc : (b₅.doConfig env₅).2.1 = [] ∧ (b₅.doConfig env₅).2.2 = none := by
      cases hcc : b₅.config <;> simp [Builder.doConfig, hcc, h₅m]
    have hf : (b₅.doConfig env₅).1.mgr = some m₅ :=
      (doConfig_frame b₅ env₅).2.1.trans h₅m
    have ha : (b₅.doConfig env₅).1.apiType = b₅.apiType :=
      (doConfig_frame b₅ env₅).1
    have hp : (b₅.doConfig env₅).1.predicates = b₅.predicates :=
      (doConfig_frame b₅ env₅).2.2.1
    have hman : (b₅.doConfig env₅).1.doManager env₅ =
        ((b₅.doConfig env₅).1, [], none) := by
      simp [Builder.doManager, hf]
    have hname : (b₅.doConfig env₅).1.getControllerName env₅ =
        (goToLower g₅.kind ++ "-application", none) := by
      simp [Builder.getControllerName, ha, hf, h₅g]
    have hctrl : (b₅.doConfig env₅).1.doController env₅ r =
        ({ (b₅.doConfig env₅).1 with ctrl := some ct₅ },
          [Event.newControllerCall (goToLower g₅.kind ++ "-application")
            (some m₅) r], none) := by
      simp [Builder.doController, hname, hf, h₅n]
    have hweb : ({ (b₅.doConfig env₅).1 with ctrl := some ct₅ } :
        Builder).doWebhook env₅ = ([], none) := by
      simp [Builder.doWebhook, ha, hf, h₅g, h₅d, h₅v]
    have hwatch : ({ (b₅.doConfig env₅).1 with ctrl := some ct₅ } :
        Builder).doWatch env₅ =
        ([Event.watchCall (some ct₅) (Source.kind b₅.apiType)
          EventHandler.enqueueRequestForObject b₅.predicates],
          some e₅) := by
      simp [Builder.doWatch, ha, hp, h₅e]
    simp [Builder.Build, hc.1, hc.2, hman, hctrl, hweb, hwatch]
  have sP : envP.getConfig.2 = some eP ∨
      (∃ cc, (envP.newManager cc).2 = some eP) ∨
      (∃ o sc, (envP.getGvk o sc).2 = some eP) ∨
      (∃ n mg, (envP.newController n mg r).2 = some eP) ∨
      ∃ ct sr hd pd, envP.ctrlWatch ct sr hd pd = some eP := by
    have hP' := hP
    simp only [Builder.Build] at hP'
    cases hh1 : (bP.doConfig envP).2.2 with
    | some e =>
      simp only [hh1] at hP'
      simp at hP'
      exact Or.inl (hP' ▸ doConfig_err bP envP e hh1)
    | none =>
    cases hh2 : ((bP.doConfig envP).1.doManager envP).2.2 with
    | some e =>
      simp only [hh1, hh2] at hP'
      simp at hP'
      exact Or.inr (Or.inl (hP' ▸ doManager_err _ envP e hh2))
    | none =>
    cases hh3 : (((bP.doConfig envP).1.doManager envP).1.doController envP
        r).2.2 with
    | some e =>
      simp only [hh1, hh2, hh3] at hP'
      simp at hP'
      rcases doController_err _ envP r e hh3 with hgvk | hctl
      · exact Or.inr (Or.inr (Or.inl (hP' ▸ hgvk)))
      · exact Or.inr (Or.inr (Or.inr (Or.inl (hP' ▸ hctl))))
    | none =>
    cases hh4 : ((((bP.doConfig envP).1.doManager envP).1.doController envP
        r).1.doWebhook envP).2 with
    | some e =>
      simp only [hh1, hh2, hh3, hh4] at hP'
      simp at hP'
      exact Or.inr (Or.inr (Or.inl ⟨_, _, hP' ▸ doWebhook_err _ envP e hh4⟩))
    | none =>
    cases hh5 : ((((bP.doConfig envP).1.doManager envP).1.doController envP
        r).1.doWatch envP).2 with
    | some e =>
      simp only [hh1, hh2, hh3, hh4, hh5] at hP'
      simp at hP'
      exact Or.inr (Or.inr (Or.inr (Or.inr (hP' ▸
        doWatch_err _ envP e hh5))))
    | none =>
      simp only [hh1, hh2, hh3, hh4, hh5] at hP'
      simp at hP'
  exact ⟨s1, s2, s3, s4, s5, sP⟩

/-- An environment where ambient config discovery fails. -/
def envCfgFail : Env := { sampleEnv with getConfig := (none, some "cfg fail") }

/-- An environment where manager construction fails. -/
def envMgrFail : Env :=
  { sampleEnv with newManager := fun _ => (none, some "mgr fail") }

/-- An environment where controller construction fails. -/
def envCtrlFail : Env :=
  { sampleEnv with newController := fun _ _ _ => (none, some "ctrl fail") }

/-- An environment where every watch registration fails (and no webhook
capability is present, to keep the trace minimal). -/
def envWatchFail : Env :=
  { envNoCapability with ctrlWatch := fun _ _ _ _ => some "watch fail" }

/-- Witness for C4 on concrete builders and failing environments. -/
theorem build_failfast_verbatim_witness :
    ((SimpleController.Build envCfgFail (some 1)).err = some "cfg fail" ∧
      (SimpleController.Build envCfgFail (some 1)).trace =
        [Event.getConfigCall]) ∧
    ((({ config := some 5 } : Builder).Build envMgrFail (some 1)).err =
        some "mgr fail" ∧
      (({ config := some 5 } : Builder).Build envMgrFail (some 1)).trace =
        [Event.newManagerCall (some 5)]) ∧
    ((({ mgr := some 3 } : Builder).Build envGvkFail (some 1)).err =
        some "boom" ∧
      (({ mgr := some 3 } : Builder).Build envGvkFail (some 1)).trace = []) ∧
    ((({ mgr := some 3 } : Builder).Build envCtrlFail (some 1)).err =
        some "ctrl fail" ∧
      (({ mgr := some 3 } : Builder).Build envCtrlFail (some 1)).trace =
        [Event.newControllerCall "foo-application" (some 3) 1]) ∧
    ((({ mgr := some 3 } : Builder).Build envWatchFail (some 1)).err =
        some "watch fail" ∧
      (({ mgr := some 3 } : Builder).Build envWatchFail (some 1)).trace =
        [Event.newControllerCall "foo-application" (some 3) 1,
         Event.watchCall (some 4) (Source.kind 0)
           EventHandler.enqueueRequestForObject []]) ∧
    (envCfgFail.getConfig.2 = some "cfg fail" ∨
      (∃ cc, (envCfgFail.newManager cc).2 = some "cfg fail") ∨
      (∃ o sc, (envCfgFail.getGvk o sc).2 = some "cfg fail") ∨
      (∃ n mg, (envCfgFail.newController n mg 1).2 = some "cfg fail") ∨
      ∃ ct sr hd pd, envCfgFail.ctrlWatch ct sr hd pd = some "cfg fail") :=
  build_failfast_verbatim SimpleController { config := some 5 }
    { mgr := some 3 } { mgr := some 3 } { mgr := some 3 } SimpleController
    envCfgFail envMgrFail envGvkFail envCtrlFail envWatchFail envCfgFail
    1 "cfg fail" "mgr fail" "boom" "ctrl fail" "watch fail" "cfg fail"
    5 3 3 3 sampleGvk sampleGvk 4
    rfl rfl rfl rfl rfl rfl rfl rfl rfl rfl rfl rfl rfl rfl rfl rfl rfl rfl

end ControllerBuilder
